import Mathlib

/-!
Verification of the fee lifecycle engine of the alfitra school-management
backend, shallowly embedded from `src/models/Fee.js`, `src/models/FeeFrequency.js`,
`src/controllers/feeController.js` and `src/controllers/notificationController.js`.

Conventions of the embedding:
* Mongo ObjectId references are modelled as natural numbers wrapped in a
  `BsonVal` sum type, so that an ObjectId-valued field compared against a
  string (as the JavaScript does in `calculateDueDate` and
  `FeeFrequency.canDelete`) is never equal to it, exactly as in JS strict
  comparison.
* JS `Date` instants are modelled as `Int` civil day numbers (midnight);
  `new Date(y, m, d)` is modelled by `jsDate`, which performs the same
  month/day arithmetic normalisation as the JS Date constructor.
* Money amounts are modelled as `Int`; a stored field that may hold a
  non-numeric value (`paidAmount` is guarded by `typeof`-checks in the
  source) is modelled as `Option Int`, `none` standing for a non-numeric
  stored value; raw JS comparisons against such a field are false on `none`.
* The document store is a `DB` structure of lists; every controller is a
  pure function from `DB` (plus request data and the ambient clock) to a
  result, `Except` modelling the error responses.
-/

namespace Alfitra

/-- A BSON-ish field value: either an ObjectId (modelled by a `Nat`) or a
string.  JS strict equality between an ObjectId and a string is always
false, which the derived `DecidableEq` reproduces. -/
inductive BsonVal where
  | oid (n : Nat)
  | str (s : String)
deriving DecidableEq, Repr

/-- `FEE_STATUS` from `src/config/constants.js`; `partlyPaid` models the
stored string value `'partially_paid'`. -/
inductive FeeStatus where
  | pending
  | partlyPaid
  | paid
  | overdue
  | cancelled
deriving DecidableEq, Repr

/-! ### JS `Date` model

`new Date(y, m, d)` in JS normalises an arbitrary integer month `m` into the
year and an arbitrary integer day `d` by counting from the first of the
normalised month.  We model the resulting instant as a civil day number via
the standard days-from-civil algorithm, using floor division throughout. -/

/-- Civil day number of the (already normalised) date `y-m-d`, `m ∈ [1,12]`.
Day 0 is 1970-01-01. -/
def daysFromCivil (y m d : Int) : Int :=
  let y' := y - (if m ≤ 2 then 1 else 0)
  let era := y'.fdiv 400
  let yoe := y' - era * 400
  let mp := (m + 9).emod 12
  let doy := (153 * mp + 2).fdiv 5 + d - 1
  let doe := yoe * 365 + yoe.fdiv 4 - yoe.fdiv 100 + doy
  era * 146097 + doe - 719468

/-- The instant (civil day number, midnight) produced by JS `new Date(y, m, d)`
with 0-based month `m`; both `m` and `d` may be out of range and are
normalised exactly as the JS Date constructor does. -/
def jsDate (y m d : Int) : Int :=
  daysFromCivil (y + m.fdiv 12) (m.emod 12 + 1) 1 + (d - 1)

/-- A reference "now" as the JS code observes it: `getFullYear()`,
`getMonth()` (0-based) and `getDate()` of the current clock.  The triple is
expected to be a normalised calendar date. -/
structure CivilDate where
  year : Int
  month : Int
  day : Int
deriving DecidableEq, Repr

/-- The instant of a `CivilDate` (midnight). -/
def CivilDate.instant (c : CivilDate) : Int := jsDate c.year c.month c.day

/-! ### `calculateDueDate` (feeController.js lines 980–1036)

The JS helper receives `feeStructure.frequency` — which, per the schema in
`Fee.js`, is an ObjectId — and switches on it against string literals.  We
keep the argument as a `BsonVal` so that both the intended string-code calls
and the actual ObjectId calls can be analysed. -/

def calculateDueDate (frequency : BsonVal) (dueDateDay : Int) (ref : CivilDate) : Int :=
  let currentDate := ref.instant
  let currentYear := ref.year
  let currentMonth := ref.month
  if frequency = .str "one-time" then
    let d := jsDate currentYear currentMonth dueDateDay
    if d < currentDate then jsDate currentYear (currentMonth + 1) dueDateDay else d
  else if frequency = .str "monthly" then
    let d := jsDate currentYear currentMonth dueDateDay
    if d < currentDate then jsDate currentYear (currentMonth + 1) dueDateDay else d
  else if frequency = .str "quarterly" then
    let quarterStartMonth := currentMonth.fdiv 3 * 3
    let d := jsDate currentYear quarterStartMonth dueDateDay
    if d < currentDate then jsDate currentYear (quarterStartMonth + 3) dueDateDay else d
  else if frequency = .str "half-yearly" then
    let halfYearMonth : Int := if currentMonth < 6 then 0 else 6
    let d := jsDate currentYear halfYearMonth dueDateDay
    if d < currentDate then jsDate currentYear (halfYearMonth + 6) dueDateDay else d
  else if frequency = .str "yearly" then
    let d := jsDate currentYear 3 dueDateDay
    if d < currentDate then jsDate (currentYear + 1) 3 dueDateDay else d
  else
    jsDate currentYear (currentMonth + 1) dueDateDay

/-- Spec-side due-date function, following the §4.1 table of the spec word
for word: one-time/monthly take the day in the reference month rolling one
month when passed; quarterly anchors to the start month of the current
calendar quarter rolling 3 months; half-yearly anchors to January or July
rolling 6 months; yearly anchors to April rolling to the next April; any
other code falls back to the same day next month. -/
def specDueDate (code : String) (dayOfMonth : Int) (ref : CivilDate) : Int :=
  let anchorRoll (anchorYear anchorMonth roll : Int) : Int :=
    let d := jsDate anchorYear anchorMonth dayOfMonth
    if d < ref.instant then jsDate anchorYear (anchorMonth + roll) dayOfMonth else d
  if code = "one-time" ∨ code = "monthly" then
    anchorRoll ref.year ref.month 1
  else if code = "quarterly" then
    anchorRoll ref.year (3 * (ref.month.fdiv 3)) 3
  else if code = "half-yearly" then
    anchorRoll ref.year (if ref.month < 6 then 0 else 6) 6
  else if code = "yearly" then
    let d := jsDate ref.year 3 dayOfMonth
    if d < ref.instant then jsDate (ref.year + 1) 3 dayOfMonth else d
  else
    jsDate ref.year (ref.month + 1) dayOfMonth

/-! ### Data model (Fee.js, FeeFrequency.js)

`paidAmount` may be non-numeric in a stored document (the instance methods
guard it with `typeof` checks), so it is an `Option Int`, `none` standing for
a non-numeric stored value.  Raw JS arithmetic/comparison against such a
field is modelled by the `js…` helpers below: comparisons involving a
non-number are false, arithmetic propagates the non-number. -/

/-- Raw JS `a - b` where `b` may be non-numeric (then the result is). -/
def jsSubOpt (a : Int) (b : Option Int) : Option Int := b.map (fun q => a - q)

/-- Raw JS `a > b` where `b` may be non-numeric (then the comparison is false). -/
def jsGtOpt (a : Int) (b : Option Int) : Bool :=
  match b with | some q => decide (q < a) | none => false

/-- Raw JS `b + a` where `b` may be non-numeric (then the result is). -/
def jsAddOpt (b : Option Int) (a : Int) : Option Int := b.map (fun q => q + a)

/-- Raw JS `a >= b` where `a` may be non-numeric (then the comparison is false). -/
def jsGeOpt (a : Option Int) (b : Int) : Bool :=
  match a with | some q => decide (b ≤ q) | none => false

/-- Raw JS `a > 0` where `a` may be non-numeric. -/
def jsGtZero (a : Option Int) : Bool :=
  match a with | some q => decide (0 < q) | none => false

/-- A fee assignment document (feeAssignmentSchema in Fee.js).  The
constructor `FeeStatus.partlyPaid` models the stored string
`'partially_paid'`. -/
structure FeeAssignment where
  id : Nat
  tenant : Nat
  student : Nat
  feeStructure : Nat
  academicYear : String
  totalAmount : Int
  discountAmount : Int
  finalAmount : Int
  dueDate : Int
  status : FeeStatus
  paidAmount : Option Int
  paidDate : Option Int
  paymentId : Option Nat
deriving DecidableEq, Repr

/-- A fee payment document (feePaymentSchema in Fee.js); `status` defaults
to `"completed"`. -/
structure FeePayment where
  id : Nat
  tenant : Nat
  student : Nat
  feeAssignment : Nat
  amount : Int
  paymentDate : Int
  paymentMethod : String
  receiptNumber : String
  collectedBy : Nat
  status : String
deriving DecidableEq, Repr

/-- A fee structure document (feeStructureSchema in Fee.js).  `category` and
`frequency` are ObjectId references per the schema, but we keep them as
`BsonVal` because downstream code compares them against strings. -/
structure FeeStructure where
  id : Nat
  tenant : Nat
  name : String
  category : BsonVal
  classes : List Nat
  amount : Int
  frequency : BsonVal
  academicYear : String
  dueDateDay : Int
  isActive : Bool
deriving DecidableEq, Repr

/-- A fee frequency document (feeFrequencySchema in FeeFrequency.js). -/
structure FeeFrequency where
  id : Nat
  tenant : Nat
  name : String
  code : String
  monthsInterval : Int
  isSystem : Bool
  isActive : Bool
deriving DecidableEq, Repr

/-- The document store: one list per collection, plus the set of existing
student ids (used to model `populate('student')` returning null) and
fresh-id counters. -/
structure DB where
  structures : List FeeStructure
  assignments : List FeeAssignment
  payments : List FeePayment
  frequencies : List FeeFrequency
  students : List Nat
  nextAssignmentId : Nat
  nextPaymentId : Nat
deriving DecidableEq, Repr

/-- The structured failure responses of the controllers (§7 taxonomy):
`notFound` is a 404, `validation` and `conflict` are 400s. -/
inductive ApiFailure where
  | notFound (msg : String)
  | validation (msg : String)
  | conflict (msg : String)
deriving DecidableEq, Repr

instance {ε α : Type} [DecidableEq ε] [DecidableEq α] : DecidableEq (Except ε α) := fun x y =>
  match x, y with
  | .ok a, .ok b => if h : a = b then .isTrue (by rw [h]) else .isFalse (by simp [h])
  | .error a, .error b => if h : a = b then .isTrue (by rw [h]) else .isFalse (by simp [h])
  | .ok _, .error _ => .isFalse (by simp)
  | .error _, .ok _ => .isFalse (by simp)

/-! ### Assignment instance methods and save hook (Fee.js) -/

/-- The JS idiom `typeof x === 'number' ? x : 0` applied to `paidAmount`. -/
def paidOf (a : FeeAssignment) : Int :=
  match a.paidAmount with | some q => q | none => 0

/-- `feeAssignmentSchema.methods.updateStatus` (Fee.js lines 265–286):
re-derives `status` in memory from `paidAmount` (non-numeric treated as 0),
`finalAmount`, `dueDate` and today. -/
def updateStatus (a : FeeAssignment) (today : Int) : FeeAssignment :=
  let paid : Int := paidOf a
  if a.finalAmount ≤ paid then { a with status := .paid }
  else if 0 < paid then
    if a.dueDate < today then { a with status := .overdue }
    else { a with status := .partlyPaid }
  else
    if a.dueDate < today then { a with status := .overdue }
    else { a with status := .pending }

/-- `feeAssignmentSchema.methods.calculatePendingAmount` (Fee.js lines
258–262): `max(finalAmount − paidAmount, 0)` with non-numeric treated as 0. -/
def calculatePendingAmount (a : FeeAssignment) : Int :=
  let fin : Int := a.finalAmount
  let paid : Int := paidOf a
  max (fin - paid) 0

/-- `feeAssignmentSchema.pre('save')` (Fee.js lines 230–246): on a new
document recompute `finalAmount` from the discount, then re-derive status:
paid when `paidAmount >= finalAmount`, partially paid when `paidAmount > 0`,
overdue when `dueDate` has passed, otherwise left unchanged.  Note this
re-derivation has no overdue branch for partially paid documents. -/
def feeAssignmentPreSave (isNew : Bool) (now : Int) (a0 : FeeAssignment) : FeeAssignment :=
  let a := if isNew then { a0 with finalAmount := a0.totalAmount - a0.discountAmount } else a0
  if jsGeOpt a.paidAmount a.finalAmount then { a with status := .paid }
  else if jsGtZero a.paidAmount then { a with status := .partlyPaid }
  else if a.dueDate < now then { a with status := .overdue }
  else a

/-- JS `s.padStart(6, '0')`. -/
def padStart6 (s : String) : String := ⟨List.replicate (6 - s.length) '0' ++ s.data⟩

/-- The receipt number generated by `feePaymentSchema.pre('save')` (Fee.js
lines 248–255): `"RCP" + currentYear + String(priorCount + 1).padStart(6, '0')`;
`seq` is already `priorCount + 1`. -/
def mkReceiptNumber (year : Nat) (seq : Nat) : String :=
  "RCP" ++ toString year ++ padStart6 (toString seq)

/-! ### Controllers (feeController.js, notificationController.js) -/

/-- The identifying tuple of an assignment (the duplicate check of
`assignFeeToStudent` and `autoAssignClassFees` queries exactly these four
fields). -/
def assignmentKey (a : FeeAssignment) : Nat × Nat × Nat × String :=
  (a.tenant, a.student, a.feeStructure, a.academicYear)

/-- The duplicate-check predicate `autoAssignClassFees` runs for a
structure: same tenant, student, fee structure and academic year. -/
def assignedPred (tenantId studentId : Nat) (s : FeeStructure) (a : FeeAssignment) : Bool :=
  a.tenant == tenantId && a.student == studentId &&
    a.feeStructure == s.id && a.academicYear == s.academicYear

/-- Body of a `POST /fees/payment` request (the fields the controller reads). -/
structure PaymentRequest where
  studentId : Nat
  feeAssignmentId : Nat
  amount : Int
  paymentMethod : String
deriving DecidableEq, Repr

/-- `recordFeePayment` (feeController.js lines 207–276): load the assignment
by id, tenant, student; reject when `amount > finalAmount − paidAmount`;
otherwise create a `FeePayment` (its save hook generating the receipt number
from the tenant's prior payment count), add `amount` to `paidAmount`, set
`paidDate`/`paymentId`, call `updateStatus`, and save the assignment (running
its pre-save hook).  `year` is `new Date().getFullYear()` and `today` the
current instant at call time. -/
def recordFeePayment (db : DB) (tenantId userId : Nat) (req : PaymentRequest)
    (year : Nat) (today : Int) : Except ApiFailure (DB × FeePayment) :=
  match db.assignments.find? (fun a =>
      a.id == req.feeAssignmentId && a.tenant == tenantId && a.student == req.studentId) with
  | none => .error (.notFound "Fee assignment not found")
  | some feeAssignment =>
    let remainingAmount := jsSubOpt feeAssignment.finalAmount feeAssignment.paidAmount
    if jsGtOpt req.amount remainingAmount then
      .error (.validation "Payment amount cannot exceed remaining amount")
    else
      let priorCount := (db.payments.filter (fun p => p.tenant == tenantId)).length
      let payment : FeePayment := {
        id := db.nextPaymentId
        tenant := tenantId
        student := req.studentId
        feeAssignment := req.feeAssignmentId
        amount := req.amount
        paymentDate := today
        paymentMethod := req.paymentMethod
        receiptNumber := mkReceiptNumber year (priorCount + 1)
        collectedBy := userId
        status := "completed" }
      let db1 : DB := { db with
        payments := db.payments ++ [payment]
        nextPaymentId := db.nextPaymentId + 1 }
      let updated := { feeAssignment with
        paidAmount := jsAddOpt feeAssignment.paidAmount req.amount
        paidDate := some today
        paymentId := some payment.id }
      let updated := updateStatus updated today
      let updated := feeAssignmentPreSave false today updated
      let db2 : DB := { db1 with
        assignments := db1.assignments.map
          (fun a => if a.id == feeAssignment.id then updated else a) }
      .ok (db2, payment)

/-- `assignFeeToStudent` (feeController.js lines 137–198): load the structure
by id and tenant; reject with a conflict when an assignment with the same
(tenant, student, feeStructure, academicYear) exists; otherwise compute the
due date from the structure's `frequency` and `dueDate` day via
`calculateDueDate` and persist a pending assignment (running its pre-save
hook). -/
def assignFeeToStudent (db : DB) (tenantId studentId feeStructureId : Nat)
    (discount : Option Int) (ref : CivilDate) : Except ApiFailure (DB × FeeAssignment) :=
  match db.structures.find? (fun s => s.id == feeStructureId && s.tenant == tenantId) with
  | none => .error (.notFound "Fee structure not found")
  | some feeStructure =>
    match db.assignments.find? (fun a =>
        a.tenant == tenantId && a.student == studentId &&
        a.feeStructure == feeStructureId && a.academicYear == feeStructure.academicYear) with
    | some _ => .error (.conflict "Fee already assigned to this student")
    | none =>
      let dueDate := calculateDueDate feeStructure.frequency feeStructure.dueDateDay ref
      let discountAmount := discount.getD 0
      let created : FeeAssignment := {
        id := db.nextAssignmentId
        tenant := tenantId
        student := studentId
        feeStructure := feeStructureId
        academicYear := feeStructure.academicYear
        totalAmount := feeStructure.amount
        discountAmount := discountAmount
        finalAmount := feeStructure.amount - discountAmount
        dueDate := dueDate
        status := .pending
        paidAmount := some 0
        paidDate := none
        paymentId := none }
      let created := feeAssignmentPreSave true ref.instant created
      let db1 : DB := { db with
        assignments := db.assignments ++ [created]
        nextAssignmentId := db.nextAssignmentId + 1 }
      .ok (db1, created)

/-- One loop iteration of `autoAssignClassFees` (feeController.js lines
936–968): skip the structure when an assignment with the same
(tenant, student, feeStructure, academicYear) exists, otherwise create one
(due-date day falling back to 10 when falsy). -/
def autoAssignStep (tenantId studentId : Nat) (ref : CivilDate)
    (acc : DB × List FeeAssignment) (feeStructure : FeeStructure) :
    DB × List FeeAssignment :=
  let db := acc.1
  match db.assignments.find? (assignedPred tenantId studentId feeStructure) with
  | some _ => acc
  | none =>
    let dueDateDay := if feeStructure.dueDateDay = 0 then 10 else feeStructure.dueDateDay
    let dueDate := calculateDueDate feeStructure.frequency dueDateDay ref
    let assignment : FeeAssignment := {
      id := db.nextAssignmentId
      tenant := tenantId
      student := studentId
      feeStructure := feeStructure.id
      academicYear := feeStructure.academicYear
      totalAmount := feeStructure.amount
      discountAmount := 0
      finalAmount := feeStructure.amount
      dueDate := dueDate
      status := .pending
      paidAmount := some 0
      paidDate := none
      paymentId := none }
    let assignment := feeAssignmentPreSave true ref.instant assignment
    ({ db with
        assignments := db.assignments ++ [assignment]
        nextAssignmentId := db.nextAssignmentId + 1 },
     acc.2 ++ [assignment])

/-- `autoAssignClassFees` (feeController.js lines 919–977): for every active
fee structure of the tenant bound to the class, create the missing
assignment; returns the new store and the list of created assignments. -/
def autoAssignClassFees (db : DB) (studentId classId tenantId : Nat) (ref : CivilDate) :
    DB × List FeeAssignment :=
  let feeStructures := db.structures.filter (fun s =>
    s.tenant == tenantId && s.classes.contains classId && s.isActive)
  feeStructures.foldl (autoAssignStep tenantId studentId ref) (db, [])

/-- `feeFrequencySchema.methods.canDelete` (FeeFrequency.js lines 84–104):
refuse for system rows; otherwise count the tenant's fee structures whose
`frequency` field equals the frequency's `code` string (note the schema
stores `frequency` as an ObjectId) and refuse when the count is positive. -/
def FeeFrequency.canDelete (freq : FeeFrequency) (db : DB) : Bool × Option String :=
  if freq.isSystem then (false, some "System frequencies cannot be deleted")
  else
    let count := (db.structures.filter (fun st =>
      st.tenant == freq.tenant && st.frequency == BsonVal.str freq.code)).length
    if 0 < count then (false, some "This frequency is being used by fee structure(s)")
    else (true, none)

/-- `deleteFeeFrequency` (notificationController.js lines 927–974): load the
frequency by id and tenant, consult `canDelete`, and hard-delete the row when
allowed. -/
def deleteFeeFrequency (db : DB) (tenantId frequencyId : Nat) : Except ApiFailure DB :=
  match db.frequencies.find? (fun f => f.id == frequencyId && f.tenant == tenantId) with
  | none => .error (.notFound "Frequency not found")
  | some frequency =>
    let chk := frequency.canDelete db
    if chk.1 then
      .ok { db with frequencies := db.frequencies.filter (fun f => !(f.id == frequency.id)) }
    else
      .error (.validation ((chk.2).getD ""))

/-! ### School fee summary (feeController.js lines 324–457)

Only the running totals are modelled; the class-wise and category-wise maps
accumulate the same per-assignment quantities. -/

/-- The top-level totals of the school summary response. -/
structure SummaryTotals where
  totalAssignments : Nat
  totalExpected : Int
  totalCollected : Int
  totalPending : Int
  totalOverdue : Int
deriving DecidableEq, Repr

/-- One iteration of the summary loop: `updateStatus` on the in-memory
document, accumulate `finalAmount`/`paidAmount`, and route a positive pending
amount into overdue or pending by the recomputed status. -/
def summaryStep (today : Int) (acc : SummaryTotals) (a0 : FeeAssignment) : SummaryTotals :=
  let a := updateStatus a0 today
  let pending := calculatePendingAmount a
  let acc1 := { acc with
    totalExpected := acc.totalExpected + a.finalAmount
    totalCollected := acc.totalCollected + (a.paidAmount.getD 0) }
  if 0 < pending then
    if a.status = .overdue then { acc1 with totalOverdue := acc1.totalOverdue + pending }
    else { acc1 with totalPending := acc1.totalPending + pending }
  else acc1

/-- The assignments the school summary iterates: the tenant's assignments
(optionally filtered by academic year) whose populated `student` is not null.
The query has no status filter. -/
def validSchoolAssignments (db : DB) (tenantId : Nat) (academicYear : Option String) :
    List FeeAssignment :=
  (db.assignments.filter (fun a =>
      a.tenant == tenantId &&
      (match academicYear with | some y => a.academicYear == y | none => true))).filter
    (fun a => db.students.contains a.student)

/-- `getSchoolFeeSummary` (feeController.js lines 324–457), restricted to the
top-level totals.  It reads the store and never persists the statuses it
recomputes. -/
def getSchoolFeeSummary (db : DB) (tenantId : Nat) (academicYear : Option String)
    (today : Int) : SummaryTotals :=
  let valid := validSchoolAssignments db tenantId academicYear
  valid.foldl (summaryStep today)
    { totalAssignments := valid.length
      totalExpected := 0
      totalCollected := 0
      totalPending := 0
      totalOverdue := 0 }

/-! ### Sequential payment executions (for receipt-number reasoning) -/

/-- One inbound `recordFeePayment` call together with the ambient clock
values at call time. -/
structure PaymentCall where
  tenantId : Nat
  userId : Nat
  req : PaymentRequest
  year : Nat
  today : Int
deriving DecidableEq, Repr

/-- Apply one payment call; a failed call leaves the store untouched (the
controller returns before any write). -/
def applyPayment (db : DB) (c : PaymentCall) : DB :=
  match recordFeePayment db c.tenantId c.userId c.req c.year c.today with
  | .ok r => r.1
  | .error _ => db

/-- Sequential execution of a list of payment calls. -/
def runPayments (db : DB) (calls : List PaymentCall) : DB :=
  calls.foldl applyPayment db

/-- The tenant's payments, in store order. -/
def paymentsOf (db : DB) (tenantId : Nat) : List FeePayment :=
  db.payments.filter (fun p => p.tenant == tenantId)

/-! ### Invariant predicates -/

/-- At most one assignment per (tenant, student, feeStructure, academicYear)
tuple. -/
def UniquePerTuple (db : DB) : Prop :=
  db.assignments.Pairwise (fun x y => assignmentKey x ≠ assignmentKey y)

/-- At most one non-cancelled assignment per tuple. -/
def UniqueNonCancelledPerTuple (db : DB) : Prop :=
  (db.assignments.filter (fun a => !(a.status == FeeStatus.cancelled))).Pairwise
    (fun x y => assignmentKey x ≠ assignmentKey y)

/-- The store already holds an assignment of structure `s` to the student. -/
def covers (db : DB) (tenantId studentId : Nat) (s : FeeStructure) : Prop :=
  ∃ a ∈ db.assignments, assignedPred tenantId studentId s a = true

/-- Every payment of every tenant carries a receipt number of the generated
shape: the `i`-th payment (0-based) of a tenant was numbered with sequence
`i + 1` and a four-digit year. -/
def ReceiptsSeqTagged (db : DB) : Prop :=
  ∀ (t i : Nat) (h : i < (paymentsOf db t).length),
    ∃ y, 1000 ≤ y ∧ y < 10000 ∧
      ((paymentsOf db t)[i]).receiptNumber = mkReceiptNumber y (i + 1)

/-! ### Decimal digit strings

`mkReceiptNumber` renders numbers with `toString`; to reason about the
resulting strings we relate the runtime rendering (`Nat.toDigits`, fuel
based) to the structural function `digitsOf` below, and recover the number
from its digit list with `valOf`. -/

/-- Big-endian decimal digit characters of `n` (what `Nat.repr` produces). -/
def digitsOf (n : Nat) : List Char :=
  if n < 10 then [Nat.digitChar n]
  else digitsOf (n / 10) ++ [Nat.digitChar (n % 10)]
decreasing_by exact Nat.div_lt_self (by omega) (by omega)

/-- Reads a digit character list back as a number. -/
def valOf (l : List Char) : Nat :=
  l.foldl (fun acc c => 10 * acc + (c.toNat - 48)) 0

/-- A digit list with a non-zero leading digit. -/
def NoLeadZero (l : List Char) : Prop :=
  ∃ c cs, l = c :: cs ∧ c ≠ '0'

/-! ### Concrete documents used by the closed theorems -/

/-- The §8 lifecycle scenario assignment: `finalAmount` 5000, nothing paid,
status pending, parameterised by its due date. -/
def exScnA (due : Int) : FeeAssignment :=
  { id := 1, tenant := 1, student := 1, feeStructure := 1,
    academicYear := "2024-2025", totalAmount := 5000, discountAmount := 0,
    finalAmount := 5000, dueDate := due, status := .pending,
    paidAmount := some 0, paidDate := none, paymentId := none }

/-- A store holding just the scenario assignment. -/
def exScnDB (due : Int) : DB :=
  { structures := [], assignments := [exScnA due], payments := [],
    frequencies := [], students := [1], nextAssignmentId := 2, nextPaymentId := 1 }

/-- A payment request against the scenario assignment. -/
def exPayReq (amt : Int) : PaymentRequest :=
  { studentId := 1, feeAssignmentId := 1, amount := amt, paymentMethod := "cash" }

/-- A cancelled assignment of 1000 with nothing paid and a past due date. -/
def exCancelledA : FeeAssignment :=
  { exScnA 100 with status := .cancelled, totalAmount := 1000, finalAmount := 1000 }

/-- A store whose only assignment is cancelled. -/
def exCancelledDB : DB :=
  { exScnDB 100 with assignments := [exCancelledA] }

/-- A tenant-1 fee structure for the assignment-conflict example, with the
same academic year as the scenario assignment. -/
def exS1 : FeeStructure :=
  { id := 1, tenant := 1, name := "Tuition", category := .oid 3, classes := [4],
    amount := 5000, frequency := .str "monthly", academicYear := "2024-2025",
    dueDateDay := 10, isActive := true }

/-- A store where structure 1 is already assigned to student 1. -/
def exAssignedDB : DB :=
  { exScnDB 100 with structures := [exS1] }

/-- The system yearly frequency row (id 7). -/
def exYearlyFreq : FeeFrequency :=
  { id := 7, tenant := 1, name := "Yearly", code := "yearly",
    monthsInterval := 12, isSystem := true, isActive := true }

/-- A structure whose `frequency` references the yearly frequency row by
ObjectId, as the schema stores it. -/
def exYearlyS : FeeStructure :=
  { id := 11, tenant := 1, name := "Annual Fee", category := .oid 3, classes := [4],
    amount := 1200, frequency := .oid 7, academicYear := "2024-2025",
    dueDateDay := 10, isActive := true }

/-- A store holding the yearly frequency and a structure referencing it. -/
def exYearlyDB : DB :=
  { structures := [exYearlyS], assignments := [], payments := [],
    frequencies := [exYearlyFreq], students := [1],
    nextAssignmentId := 1, nextPaymentId := 1 }

/-- A custom (non-system) frequency row of tenant 1. -/
def exF5 : FeeFrequency :=
  { id := 5, tenant := 1, name := "Bi Monthly", code := "bi-monthly",
    monthsInterval := 2, isSystem := false, isActive := true }

/-- A structure of tenant 1 referencing frequency 5 by ObjectId. -/
def exS9 : FeeStructure :=
  { id := 9, tenant := 1, name := "Lab Fee", category := .oid 3, classes := [4],
    amount := 100, frequency := .oid 5, academicYear := "2024-2025",
    dueDateDay := 10, isActive := true }

/-- A store where fee structure 9 references frequency 5. -/
def exFreqDB : DB :=
  { structures := [exS9], assignments := [], payments := [],
    frequencies := [exF5], students := [], nextAssignmentId := 1, nextPaymentId := 1 }

/-- Two sequential payment calls (2000 then 3000) against the scenario
assignment, crossing a year boundary between them. -/
def exC8Calls : List PaymentCall :=
  [ { tenantId := 1, userId := 9, req := exPayReq 2000, year := 2024, today := 200 },
    { tenantId := 1, userId := 9, req := exPayReq 3000, year := 2025, today := 300 } ]

/-- The §8 lifecycle run: pay 2000 then 3000 against the scenario
assignment; observe `(paidAmount, status)` of the stored assignment after
each payment and the pending amount after the second. -/
def scenarioRun (due today1 today2 : Int) :
    Option (List (Option Int × FeeStatus) × List (Option Int × FeeStatus) × List Int) :=
  match recordFeePayment (exScnDB due) 1 9 (exPayReq 2000) 2024 today1 with
  | .error _ => none
  | .ok (db1, _) =>
    match recordFeePayment db1 1 9 (exPayReq 3000) 2025 today2 with
    | .error _ => none
    | .ok (db2, _) =>
      some (db1.assignments.map (fun a => (a.paidAmount, a.status)),
            db2.assignments.map (fun a => (a.paidAmount, a.status)),
            db2.assignments.map calculatePendingAmount)

/-! ## Theorems -/

/-- C7: `calculateDueDate`, viewed as a pure function of (frequency code,
dayOfMonth, reference date), satisfies the §4.1 table (`specDueDate`, written
from the spec's words) for every code — known or unknown — every day of month
and every reference date; in particular `('monthly', 10, 2024-01-15)` gives
2024-02-10 and `('monthly', 10, 2024-01-05)` gives 2024-01-10. -/
theorem calculateDueDate_matches_spec :
    (∀ (code : String) (day : Int) (ref : CivilDate),
      calculateDueDate (.str code) day ref = specDueDate code day ref) ∧
    calculateDueDate (.str "monthly") 10 ⟨2024, 0, 15⟩ = jsDate 2024 1 10 ∧
    calculateDueDate (.str "monthly") 10 ⟨2024, 0, 5⟩ = jsDate 2024 0 10 := by
  refine ⟨?_, by decide, by decide⟩
  intro code day ref
  by_cases h1 : code = "one-time"
  · simp [calculateDueDate, specDueDate, h1]
  · by_cases h2 : code = "monthly"
    · simp [calculateDueDate, specDueDate, h1, h2]
    · by_cases h3 : code = "quarterly"
      · simp [calculateDueDate, specDueDate, h1, h2, h3, mul_comm]
      · by_cases h4 : code = "half-yearly"
        · simp [calculateDueDate, specDueDate, h1, h2, h3, h4]
        · by_cases h5 : code = "yearly"
          · simp [calculateDueDate, specDueDate, h1, h2, h3, h4, h5]
          · simp [calculateDueDate, specDueDate, h1, h2, h3, h4, h5]

/-- C6: the §4.1 branches are unreachable from `assignFeeToStudent`, because
the structure's `frequency` field is an ObjectId (Fee.js lines 35–38) and the
switch compares it against code strings: for every ObjectId the result is the
generic next-month fallback.  Concretely, assigning a structure whose
frequency is the system yearly row (code `'yearly'`) on 2024-01-05 yields a
due date of 2024-02-10, not the April date the §4.1 yearly rule demands. -/
theorem calculateDueDate_oid_fallback :
    (∀ (n : Nat) (day : Int) (ref : CivilDate),
      calculateDueDate (.oid n) day ref = jsDate ref.year (ref.month + 1) day) ∧
    exYearlyFreq.code = "yearly" ∧ exYearlyFreq.isSystem = true ∧
    exYearlyS.frequency = .oid exYearlyFreq.id ∧
    (assignFeeToStudent exYearlyDB 1 1 11 none ⟨2024, 0, 5⟩).toOption.map
      (fun r => r.2.dueDate) = some (jsDate 2024 1 10) ∧
    jsDate 2024 1 10 ≠ jsDate 2024 3 10 := by
  refine ⟨?_, rfl, rfl, rfl, by decide, by decide⟩
  intro n day ref
  simp [calculateDueDate]

/-- C3: for every assignment whose status is not cancelled, after
`updateStatus()` the in-memory status equals the §4.2 table (read as an
ordered decision list, its first row taking precedence) applied to
(paidAmount, finalAmount, dueDate, today), non-numeric `paidAmount` treated
as 0. -/
theorem updateStatus_matches_table (a : FeeAssignment) (today : Int)
    (_hstatus : a.status ≠ .cancelled) :
    (a.finalAmount ≤ paidOf a → (updateStatus a today).status = .paid) ∧
    (paidOf a < a.finalAmount → 0 < paidOf a → a.dueDate < today →
      (updateStatus a today).status = .overdue) ∧
    (paidOf a < a.finalAmount → 0 < paidOf a → today ≤ a.dueDate →
      (updateStatus a today).status = .partlyPaid) ∧
    (paidOf a < a.finalAmount → paidOf a = 0 → a.dueDate < today →
      (updateStatus a today).status = .overdue) ∧
    (paidOf a < a.finalAmount → paidOf a = 0 → today ≤ a.dueDate →
      (updateStatus a today).status = .pending) := by
  refine ⟨fun h1 => ?_, fun h1 h2 h3 => ?_, fun h1 h2 h3 => ?_,
    fun h1 h2 h3 => ?_, fun h1 h2 h3 => ?_⟩ <;>
    simp only [updateStatus] <;> split_ifs <;> first | rfl | omega

/-- C3 witness: a pending assignment of 500 with 100 paid and a future due
date is re-derived to partially paid. -/
theorem updateStatus_matches_table_witness :
    (updateStatus { exScnA 100 with finalAmount := 500, paidAmount := some 100 } 50).status =
      .partlyPaid :=
  (updateStatus_matches_table { exScnA 100 with finalAmount := 500, paidAmount := some 100 } 50
    (by decide)).2.2.1 (by decide) (by decide) (by decide)

/-- C10: deletion of a fee frequency.  The system-row guard does hold: for
every frequency row marked `isSystem`, `canDelete` refuses.  But the in-use
guard is vacuous: `canDelete` counts fee structures whose `frequency` field
equals the frequency's `code` *string*, while the schema stores `frequency`
as an ObjectId, so the count is 0 for every ObjectId-referencing structure
and a referenced custom frequency is hard-deleted: in the concrete store,
structure 9 of tenant 1 references frequency 5 (`bi-monthly`, not system),
yet `canDelete` answers true and `deleteFeeFrequency` removes the row. -/
theorem deleteFeeFrequency_inUse_guard_vacuous :
    (∀ (freq : FeeFrequency) (db : DB),
      (FeeFrequency.canDelete { freq with isSystem := true } db).1 = false) ∧
    exF5.isSystem = false ∧
    exS9.tenant = exF5.tenant ∧ exS9.frequency = .oid exF5.id ∧
    (exF5.canDelete exFreqDB).1 = true ∧
    deleteFeeFrequency exFreqDB 1 5 = .ok { exFreqDB with frequencies := [] } := by
  refine ⟨?_, rfl, rfl, rfl, by decide, by decide⟩
  intro freq db
  simp [FeeFrequency.canDelete]

/-- C9 counterexample: the school summary's query has no status filter, so a
store whose only assignment is cancelled (finalAmount 1000, unpaid, past
due) still produces totalExpected = 1000 and totalOverdue = 1000 — the
cancelled assignment is iterated, its amounts are accumulated and its status
is recomputed for the routing, contradicting the claim that it contributes
nothing. -/
theorem schoolSummary_counts_cancelled :
    exCancelledA.status = .cancelled ∧
    getSchoolFeeSummary exCancelledDB 1 none 200 =
      { totalAssignments := 1, totalExpected := 1000, totalCollected := 0,
        totalPending := 0, totalOverdue := 1000 } ∧
    (1000 : Int) ≠ 0 := by
  decide

/-- C9 amended: the school summary iterates every assignment of the tenant
(optionally year-filtered) whose student resolves, with no status filter:
its expected/collected totals are the sums over that set, cancelled
assignments included; the summary never writes back the statuses it
recomputes (it is a pure function of the store). -/
theorem schoolSummary_totals (db : DB) (tenantId : Nat) (year : Option String)
    (today : Int) :
    (getSchoolFeeSummary db tenantId year today).totalExpected =
      ((validSchoolAssignments db tenantId year).map (fun a => a.finalAmount)).sum ∧
    (getSchoolFeeSummary db tenantId year today).totalCollected =
      ((validSchoolAssignments db tenantId year).map (fun a => a.paidAmount.getD 0)).sum := by
  have key : ∀ (l : List FeeAssignment) (acc : SummaryTotals),
      (l.foldl (summaryStep today) acc).totalExpected =
        acc.totalExpected + (l.map (fun a => a.finalAmount)).sum ∧
      (l.foldl (summaryStep today) acc).totalCollected =
        acc.totalCollected + (l.map (fun a => a.paidAmount.getD 0)).sum := by
    intro l
    induction l with
    | nil => intro acc; simp
    | cons a t ih =>
      intro acc
      have step1 : (summaryStep today acc a).totalExpected =
          acc.totalExpected + a.finalAmount ∧
          (summaryStep today acc a).totalCollected =
          acc.totalCollected + a.paidAmount.getD 0 := by
        have hfin : (updateStatus a today).finalAmount = a.finalAmount := by
          simp only [updateStatus]; split_ifs <;> rfl
        have hpaid : (updateStatus a today).paidAmount = a.paidAmount := by
          simp only [updateStatus]; split_ifs <;> rfl
        simp only [summaryStep, hfin, hpaid]
        split_ifs <;> exact ⟨rfl, rfl⟩
      obtain ⟨e1, e2⟩ := ih (summaryStep today acc a)
      simp only [List.foldl_cons, List.map_cons, List.sum_cons, e1, e2, step1.1, step1.2]
      constructor <;> ring
  obtain ⟨e1, e2⟩ := key (validSchoolAssignments db tenantId year) _
  simp only [getSchoolFeeSummary] at *
  exact ⟨by rw [e1]; ring_nf, by rw [e2]; ring_nf⟩

/-- `updateStatus` only rewrites `status`. -/
theorem updateStatus_preserves (a : FeeAssignment) (t : Int) :
    (updateStatus a t).paidAmount = a.paidAmount ∧
    (updateStatus a t).finalAmount = a.finalAmount ∧
    (updateStatus a t).dueDate = a.dueDate := by
  simp only [updateStatus]
  split_ifs <;> exact ⟨rfl, rfl, rfl⟩

/-- The save hook on an existing document only rewrites `status`. -/
theorem preSave_old_preserves (t : Int) (a : FeeAssignment) :
    (feeAssignmentPreSave false t a).paidAmount = a.paidAmount ∧
    (feeAssignmentPreSave false t a).finalAmount = a.finalAmount := by
  simp only [feeAssignmentPreSave, if_neg (Bool.false_ne_true)]
  split_ifs <;> exact ⟨rfl, rfl⟩

/-- C1: for every store, assignment (located by the controller's query, with
a numeric `paidAmount`) and payment request: when the requested amount
strictly exceeds `finalAmount − paidAmount`, `recordFeePayment` fails with
the validation error and the store is unchanged (no payment document, no
assignment mutation); when it does not, the call succeeds, exactly one
payment is appended, and the assignment's `paidAmount` becomes
`paidAmount + amount`, which cannot exceed `finalAmount`. -/
theorem recordFeePayment_amount_bound (db : DB) (tenantId userId : Nat)
    (req : PaymentRequest) (year : Nat) (today : Int) (a : FeeAssignment) (paid : Int)
    (hfind : db.assignments.find? (fun b =>
      b.id == req.feeAssignmentId && b.tenant == tenantId && b.student == req.studentId) = some a)
    (hpaid : a.paidAmount = some paid) :
    (a.finalAmount - paid < req.amount →
      recordFeePayment db tenantId userId req year today =
        .error (.validation "Payment amount cannot exceed remaining amount") ∧
      applyPayment db ⟨tenantId, userId, req, year, today⟩ = db) ∧
    (req.amount ≤ a.finalAmount - paid →
      ∃ db' p a',
        recordFeePayment db tenantId userId req year today = .ok (db', p) ∧
        p.amount = req.amount ∧
        db'.payments = db.payments ++ [p] ∧
        db'.assignments = db.assignments.map (fun b => if b.id == a.id then a' else b) ∧
        a'.paidAmount = some (paid + req.amount) ∧
        paid + req.amount ≤ a.finalAmount) := by
  constructor
  · intro hgt
    have hcond : jsGtOpt req.amount (jsSubOpt a.finalAmount a.paidAmount) = true := by
      simp only [jsGtOpt, jsSubOpt, hpaid, Option.map_some', decide_eq_true_eq]
      omega
    have herr : recordFeePayment db tenantId userId req year today =
        .error (.validation "Payment amount cannot exceed remaining amount") := by
      simp only [recordFeePayment, hfind, hcond, if_true]
    exact ⟨herr, by simp only [applyPayment, herr]⟩
  · intro hle
    have hcond : jsGtOpt req.amount (jsSubOpt a.finalAmount a.paidAmount) = false := by
      simp only [jsGtOpt, jsSubOpt, hpaid, Option.map_some', decide_eq_false_iff_not]
      omega
    simp only [recordFeePayment, hfind, hcond, if_false, Bool.false_eq_true]
    refine ⟨_, _, _, rfl, rfl, rfl, rfl, ?_, by omega⟩
    rw [(preSave_old_preserves _ _).1, (updateStatus_preserves _ _).1]
    simp [jsAddOpt, hpaid]

/-- C1 witness: on the scenario store (finalAmount 5000, nothing paid), a
6000 payment is rejected with the validation error and the store is
unchanged. -/
theorem recordFeePayment_amount_bound_witness :
    recordFeePayment (exScnDB 100) 1 9 (exPayReq 6000) 2024 200 =
      .error (.validation "Payment amount cannot exceed remaining amount") ∧
    applyPayment (exScnDB 100) ⟨1, 9, exPayReq 6000, 2024, 200⟩ = exScnDB 100 :=
  (recordFeePayment_amount_bound (exScnDB 100) 1 9 (exPayReq 6000) 2024 200
    (exScnA 100) 0 (by decide) (by decide)).1 (by decide)

/-- C2 counterexample: in the §8 scenario with the due date already past
(due = day 100, today = day 200), recording the 2000 payment leaves the
*persisted* assignment with status `partially_paid`, not `overdue` as the
claim requires for `dueDate < today`: the assignment save hook re-derives
the status after `updateStatus` and its partially-paid branch ignores the
due date. -/
theorem recordFeePayment_scenario_overdue_counterexample :
    (100 : Int) < 200 ∧
    (recordFeePayment (exScnDB 100) 1 9 (exPayReq 2000) 2024 200).toOption.map
      (fun r => r.1.assignments.map (fun a => (a.paidAmount, a.status))) =
      some [(some 2000, FeeStatus.partlyPaid)] ∧
    FeeStatus.partlyPaid ≠ FeeStatus.overdue := by
  decide

/-- C2 amended: in the §8 scenario (finalAmount 5000, status pending),
recording 2000 leaves the persisted assignment with paidAmount 2000 and
stored status `partially_paid` regardless of how `dueDate` compares to
today (the save hook's re-derivation has no overdue branch for partial
payments); the subsequent 3000 payment leaves paidAmount 5000, stored
status `paid`, and pending amount 0. -/
theorem recordFeePayment_scenario (due today1 today2 : Int) :
    scenarioRun due today1 today2 =
      some ([(some 2000, .partlyPaid)], [(some 5000, .paid)], [0]) := by
  by_cases h1 : due < today1 <;> by_cases h2 : due < today2 <;>
    simp [scenarioRun, recordFeePayment, exScnDB, exScnA, exPayReq, List.find?,
      updateStatus, paidOf, feeAssignmentPreSave, jsSubOpt, jsGtOpt, jsAddOpt,
      jsGeOpt, jsGtZero, calculatePendingAmount, h1, h2]

/-- The save hook never rewrites the identifying tuple. -/
theorem preSave_key (isNew : Bool) (t : Int) (a : FeeAssignment) :
    assignmentKey (feeAssignmentPreSave isNew t a) = assignmentKey a := by
  simp only [feeAssignmentPreSave, assignmentKey]
  split_ifs <;> rfl

/-- The duplicate-check predicate holds exactly on the matching tuple. -/
theorem assignedPred_iff (tenantId studentId : Nat) (s : FeeStructure) (a : FeeAssignment) :
    assignedPred tenantId studentId s a = true ↔
      assignmentKey a = (tenantId, studentId, s.id, s.academicYear) := by
  simp [assignedPred, assignmentKey, Prod.ext_iff, and_assoc]

/-- Appending an assignment with a fresh tuple preserves per-tuple
uniqueness. -/
theorem uniqueAppend (l : List FeeAssignment) (x : FeeAssignment)
    (hU : l.Pairwise (fun p q => assignmentKey p ≠ assignmentKey q))
    (hx : ∀ a ∈ l, assignmentKey a ≠ assignmentKey x) :
    (l ++ [x]).Pairwise (fun p q => assignmentKey p ≠ assignmentKey q) := by
  refine List.pairwise_append.mpr ⟨hU, List.pairwise_singleton _ _, ?_⟩
  intro a ha b hb
  rw [List.mem_singleton] at hb
  subst hb
  exact hx a ha

/-- Per-tuple uniqueness restricts to the non-cancelled subset. -/
theorem uniqueNonCancelled_of_unique (db : DB) (h : UniquePerTuple db) :
    UniqueNonCancelledPerTuple db :=
  List.Pairwise.filter _ h

/-- One auto-assignment loop iteration preserves per-tuple uniqueness. -/
theorem autoAssignStep_unique (tenantId studentId : Nat) (ref : CivilDate)
    (acc : DB × List FeeAssignment) (s : FeeStructure)
    (h : UniquePerTuple acc.1) :
    UniquePerTuple (autoAssignStep tenantId studentId ref acc s).1 := by
  unfold autoAssignStep
  cases hf : acc.1.assignments.find? (assignedPred tenantId studentId s) with
  | some a => simpa [hf]
  | none =>
    simp only [hf]
    refine uniqueAppend _ _ h ?_
    intro a ha
    have hp := List.find?_eq_none.mp hf a ha
    rw [preSave_key]
    intro hk
    exact hp ((assignedPred_iff tenantId studentId s a).mpr (by rw [hk]; rfl))

/-- The auto-assignment loop preserves per-tuple uniqueness. -/
theorem autoAssignLoop_unique (tenantId studentId : Nat) (ref : CivilDate) :
    ∀ (ss : List FeeStructure) (acc : DB × List FeeAssignment),
      UniquePerTuple acc.1 →
      UniquePerTuple (ss.foldl (autoAssignStep tenantId studentId ref) acc).1 := by
  intro ss
  induction ss with
  | nil => intro acc h; simpa
  | cons s t ih => intro acc h; exact ih _ (autoAssignStep_unique tenantId studentId ref acc s h)

/-- C4: when an assignment with the same (tenant, student, feeStructure,
academicYear) tuple exists, `assignFeeToStudent` fails with the conflict
error (and, the call being an error, creates nothing); and starting from a
store with at most one assignment per tuple, both `assignFeeToStudent` and
`autoAssignClassFees` preserve that bound, hence at most one non-cancelled
assignment per tuple under sequential execution. -/
theorem assignFee_unique_tuple (db : DB) (tenantId studentId feeStructureId : Nat)
    (discount : Option Int) (ref : CivilDate) :
    (∀ s, db.structures.find? (fun t => t.id == feeStructureId && t.tenant == tenantId) = some s →
      (∃ a ∈ db.assignments,
        assignmentKey a = (tenantId, studentId, feeStructureId, s.academicYear)) →
      assignFeeToStudent db tenantId studentId feeStructureId discount ref =
        .error (.conflict "Fee already assigned to this student")) ∧
    (UniquePerTuple db →
      (∀ db' r,
        assignFeeToStudent db tenantId studentId feeStructureId discount ref = .ok (db', r) →
        UniquePerTuple db' ∧ UniqueNonCancelledPerTuple db') ∧
      (∀ classId,
        UniquePerTuple (autoAssignClassFees db studentId classId tenantId ref).1 ∧
        UniqueNonCancelledPerTuple (autoAssignClassFees db studentId classId tenantId ref).1)) := by
  constructor
  · intro s hs ⟨a, ha, hk⟩
    have hpred : (fun b => b.tenant == tenantId && b.student == studentId &&
        b.feeStructure == feeStructureId && b.academicYear == s.academicYear) a = true := by
      simp only [assignmentKey, Prod.mk.injEq] at hk
      simp [hk.1, hk.2.1, hk.2.2.1, hk.2.2.2]
    simp only [assignFeeToStudent, hs]
    cases hf : db.assignments.find? (fun b => b.tenant == tenantId && b.student == studentId &&
        b.feeStructure == feeStructureId && b.academicYear == s.academicYear) with
    | none => exact absurd hpred (by simpa using List.find?_eq_none.mp hf a ha)
    | some b => simp [hf]
  · intro hU
    constructor
    · intro db' r hok
      unfold assignFeeToStudent at hok
      cases hs : db.structures.find? (fun t => t.id == feeStructureId && t.tenant == tenantId) with
      | none => simp [hs] at hok
      | some s =>
        cases hf : db.assignments.find? (fun b => b.tenant == tenantId &&
            b.student == studentId && b.feeStructure == feeStructureId &&
            b.academicYear == s.academicYear) with
        | some b => simp [hs, hf] at hok
        | none =>
          simp only [hs, hf, Except.ok.injEq, Prod.mk.injEq] at hok
          obtain ⟨hdb, -⟩ := hok
          rw [← hdb]
          have hUnew : UniquePerTuple { db with
              assignments := db.assignments ++
                [feeAssignmentPreSave true ref.instant
                  { id := db.nextAssignmentId, tenant := tenantId, student := studentId,
                    feeStructure := feeStructureId, academicYear := s.academicYear,
                    totalAmount := s.amount, discountAmount := discount.getD 0,
                    finalAmount := s.amount - discount.getD 0,
                    dueDate := calculateDueDate s.frequency s.dueDateDay ref,
                    status := .pending, paidAmount := some 0, paidDate := none,
                    paymentId := none }]
              nextAssignmentId := db.nextAssignmentId + 1 } := by
            refine uniqueAppend _ _ hU ?_
            intro a ha
            have hp := List.find?_eq_none.mp hf a ha
            rw [preSave_key]
            intro hk
            simp only [assignmentKey, Prod.mk.injEq] at hk
            exact hp (by simp [hk.1, hk.2.1, hk.2.2.1, hk.2.2.2])
          exact ⟨hUnew, uniqueNonCancelled_of_unique _ hUnew⟩
    · intro classId
      have h1 := autoAssignLoop_unique tenantId studentId ref
        (db.structures.filter (fun s =>
          s.tenant == tenantId && s.classes.contains classId && s.isActive)) (db, []) hU
      exact ⟨h1, uniqueNonCancelled_of_unique _ h1⟩

/-- C4 witness: in a store where structure 1 (year 2024-2025) is already
assigned to student 1, re-assigning it yields the conflict error; and the
store satisfies per-tuple uniqueness, which assignments and auto-assignments
preserve. -/
theorem assignFee_unique_tuple_witness :
    assignFeeToStudent exAssignedDB 1 1 1 none ⟨2024, 0, 5⟩ =
      .error (.conflict "Fee already assigned to this student") :=
  (assignFee_unique_tuple exAssignedDB 1 1 1 none ⟨2024, 0, 5⟩).1 exS1 (by decide)
    ⟨exScnA 100, by decide, by decide⟩

/-- One loop iteration never removes assignments and never touches the
structure collection. -/
theorem autoAssignStep_mono (tenantId studentId : Nat) (ref : CivilDate)
    (acc : DB × List FeeAssignment) (s : FeeStructure) :
    (∀ a ∈ acc.1.assignments, a ∈ (autoAssignStep tenantId studentId ref acc s).1.assignments) ∧
    (autoAssignStep tenantId studentId ref acc s).1.structures = acc.1.structures := by
  unfold autoAssignStep
  cases hf : acc.1.assignments.find? (assignedPred tenantId studentId s) with
  | some a => simp [hf]
  | none =>
    simp only [hf]
    exact ⟨fun a ha => List.mem_append_left _ ha, by trivial⟩

/-- After one loop iteration on `s`, the store covers `s`. -/
theorem autoAssignStep_covers (tenantId studentId : Nat) (ref : CivilDate)
    (acc : DB × List FeeAssignment) (s : FeeStructure) :
    covers (autoAssignStep tenantId studentId ref acc s).1 tenantId studentId s := by
  unfold autoAssignStep
  cases hf : acc.1.assignments.find? (assignedPred tenantId studentId s) with
  | some a =>
    simp only [hf]
    exact ⟨a, List.mem_of_find?_eq_some hf, List.find?_some hf⟩
  | none =>
    simp only [hf]
    refine ⟨_, List.mem_append_right _ (List.mem_singleton_self _), ?_⟩
    rw [assignedPred_iff, preSave_key]
    rfl

/-- `covers` is monotone under adding assignments. -/
theorem covers_mono (db db' : DB) (tenantId studentId : Nat) (s : FeeStructure)
    (hsub : ∀ a ∈ db.assignments, a ∈ db'.assignments)
    (h : covers db tenantId studentId s) : covers db' tenantId studentId s := by
  obtain ⟨a, ha, hp⟩ := h
  exact ⟨a, hsub a ha, hp⟩

/-- The auto-assignment loop never removes assignments and never touches the
structure collection. -/
theorem autoAssignLoop_mono (tenantId studentId : Nat) (ref : CivilDate) :
    ∀ (ss : List FeeStructure) (acc : DB × List FeeAssignment),
      (∀ a ∈ acc.1.assignments,
        a ∈ (ss.foldl (autoAssignStep tenantId studentId ref) acc).1.assignments) ∧
      (ss.foldl (autoAssignStep tenantId studentId ref) acc).1.structures =
        acc.1.structures := by
  intro ss
  induction ss with
  | nil => intro acc; exact ⟨fun a ha => ha, rfl⟩
  | cons s t ih =>
    intro acc
    obtain ⟨m1, e1⟩ := autoAssignStep_mono tenantId studentId ref acc s
    obtain ⟨m2, e2⟩ := ih (autoAssignStep tenantId studentId ref acc s)
    exact ⟨fun a ha => m2 a (m1 a ha), by rw [List.foldl_cons, e2, e1]⟩

/-- After the loop, every processed structure is covered. -/
theorem autoAssignLoop_covers (tenantId studentId : Nat) (ref : CivilDate) :
    ∀ (ss : List FeeStructure) (acc : DB × List FeeAssignment),
      ∀ s ∈ ss, covers (ss.foldl (autoAssignStep tenantId studentId ref) acc).1
        tenantId studentId s := by
  intro ss
  induction ss with
  | nil => intro acc s hs; exact absurd hs (List.not_mem_nil s)
  | cons hd t ih =>
    intro acc s hs
    rw [List.foldl_cons]
    rcases List.mem_cons.mp hs with h | h
    · subst h
      exact covers_mono _ _ _ _ _ (autoAssignLoop_mono tenantId studentId ref t _).1
        (autoAssignStep_covers tenantId studentId ref acc s)
    · exact ih _ s h

/-- A loop iteration on an already covered structure is a no-op. -/
theorem autoAssignStep_noop (tenantId studentId : Nat) (ref : CivilDate)
    (acc : DB × List FeeAssignment) (s : FeeStructure)
    (h : covers acc.1 tenantId studentId s) :
    autoAssignStep tenantId studentId ref acc s = acc := by
  obtain ⟨a, ha, hp⟩ := h
  unfold autoAssignStep
  cases hf : acc.1.assignments.find? (assignedPred tenantId studentId s) with
  | some b => simp [hf]
  | none => exact absurd hp (by simpa using List.find?_eq_none.mp hf a ha)

/-- A loop over covered structures is a no-op. -/
theorem autoAssignLoop_noop (tenantId studentId : Nat) (ref : CivilDate) :
    ∀ (ss : List FeeStructure) (acc : DB × List FeeAssignment),
      (∀ s ∈ ss, covers acc.1 tenantId studentId s) →
      ss.foldl (autoAssignStep tenantId studentId ref) acc = acc := by
  intro ss
  induction ss with
  | nil => intro acc _; rfl
  | cons hd t ih =>
    intro acc h
    rw [List.foldl_cons, autoAssignStep_noop tenantId studentId ref acc hd
      (h hd (List.mem_cons_self hd t))]
    exact ih acc (fun s hs => h s (List.mem_cons_of_mem hd hs))

/-- C5: `autoAssignClassFees` is idempotent under sequential execution: a
second run (at any later reference date) finds every active structure of the
class already assigned, creates nothing, modifies nothing, and returns the
store of the first run unchanged with an empty creation list. -/
theorem autoAssignClassFees_idem (db : DB) (studentId classId tenantId : Nat)
    (ref ref2 : CivilDate) :
    autoAssignClassFees (autoAssignClassFees db studentId classId tenantId ref).1
      studentId classId tenantId ref2 =
    ((autoAssignClassFees db studentId classId tenantId ref).1, []) := by
  unfold autoAssignClassFees
  have hstruct : ((db.structures.filter (fun s =>
      s.tenant == tenantId && s.classes.contains classId && s.isActive)).foldl
        (autoAssignStep tenantId studentId ref) (db, [])).1.structures = db.structures :=
    (autoAssignLoop_mono tenantId studentId ref _ _).2
  rw [hstruct]
  exact autoAssignLoop_noop tenantId studentId ref2 _ _
    (fun s hs => autoAssignLoop_covers tenantId studentId ref _ _ s hs)

/-! ### Decimal rendering lemmas (for receipt numbers) -/

/-- The fuel-based digit renderer used by `Nat.repr` agrees with the
structural `digitsOf` whenever the fuel suffices. -/
theorem toDigitsCore_eq_digitsOf (fuel : Nat) :
    ∀ (n : Nat) (ds : List Char), n < fuel →
      Nat.toDigitsCore 10 fuel n ds = digitsOf n ++ ds := by
  induction fuel with
  | zero => intro n ds h; exact absurd h (Nat.not_lt_zero n)
  | succ f ih =>
    intro n ds h
    rw [digitsOf]
    by_cases h10 : n < 10
    · have hz : n / 10 = 0 := Nat.div_eq_of_lt h10
      simp [Nat.toDigitsCore, hz, h10, Nat.mod_eq_of_lt h10]
    · have hz : ¬ n / 10 = 0 := by omega
      have hlt : n / 10 < f := by omega
      simp only [Nat.toDigitsCore, hz, if_false, h10, if_neg]
      rw [ih _ _ hlt]
      simp

/-- `Nat.repr` renders exactly the digits of `digitsOf`. -/
theorem repr_data (n : Nat) : (Nat.repr n).data = digitsOf n := by
  show (Nat.toDigits 10 n).asString.data = digitsOf n
  rw [Nat.toDigits, toDigitsCore_eq_digitsOf (n + 1) n [] (Nat.lt_succ_self n)]
  simp [List.asString]

/-- Reading a digit character back. -/
theorem digitChar_toNat : ∀ d, d < 10 → (Nat.digitChar d).toNat - 48 = d := by
  decide

/-- `valOf` on a snoc. -/
theorem valOf_append (l : List Char) (c : Char) :
    valOf (l ++ [c]) = 10 * valOf l + (c.toNat - 48) := by
  simp [valOf, List.foldl_append]

/-- `valOf` inverts `digitsOf`. -/
theorem valOf_digitsOf : ∀ n, valOf (digitsOf n) = n := by
  intro n
  induction n using Nat.strong_induction_on with
  | _ n ih =>
    rw [digitsOf]
    by_cases h : n < 10
    · simp only [h, if_true]
      simpa [valOf] using digitChar_toNat n h
    · simp only [h, if_false]
      rw [valOf_append, ih (n / 10) (by omega)]
      have := digitChar_toNat (n % 10) (by omega)
      omega

/-- `digitsOf` is injective. -/
theorem digitsOf_inj (m n : Nat) (h : digitsOf m = digitsOf n) : m = n := by
  have hm := valOf_digitsOf m
  rw [h, valOf_digitsOf] at hm
  omega

/-- One division step of the digit length. -/
theorem digitsOf_len_step (n : Nat) (hn : 10 ≤ n) :
    (digitsOf n).length = (digitsOf (n / 10)).length + 1 := by
  conv_lhs => rw [digitsOf]
  simp [Nat.not_lt.mpr hn]

/-- Single digit length. -/
theorem digitsOf_len_one (n : Nat) (h : n < 10) : (digitsOf n).length = 1 := by
  rw [digitsOf]
  simp [h]

/-- Four-digit years render to four characters. -/
theorem digitsOf_len_four (y : Nat) (h1 : 1000 ≤ y) (h2 : y < 10000) :
    (digitsOf y).length = 4 := by
  rw [digitsOf_len_step y (by omega), digitsOf_len_step (y / 10) (by omega),
    digitsOf_len_step (y / 10 / 10) (by omega), digitsOf_len_one (y / 10 / 10 / 10) (by omega)]

/-- A positive number renders with no leading zero. -/
theorem digitsOf_noLeadZero : ∀ n, 1 ≤ n → NoLeadZero (digitsOf n) := by
  intro n
  induction n using Nat.strong_induction_on with
  | _ n ih =>
    intro hn
    rw [digitsOf]
    by_cases h10 : n < 10
    · simp only [h10, if_true]
      exact ⟨Nat.digitChar n, [], rfl,
        (by decide : ∀ m, 1 ≤ m → m < 10 → Nat.digitChar m ≠ '0') n hn h10⟩
    · simp only [h10, if_false]
      obtain ⟨c, cs, hc, hne⟩ := ih (n / 10) (by omega) (by omega)
      exact ⟨c, cs ++ [Nat.digitChar (n % 10)], by rw [hc]; rfl, hne⟩

/-- Left zero padding never confuses two zero-free digit strings. -/
theorem replicate_zero_pad_inj : ∀ (a b : Nat) (d1 d2 : List Char),
    NoLeadZero d1 → NoLeadZero d2 →
    List.replicate a '0' ++ d1 = List.replicate b '0' ++ d2 → d1 = d2 := by
  intro a
  induction a with
  | zero =>
    intro b d1 d2 h1 _ he
    cases b with
    | zero => simpa using he
    | succ b =>
      obtain ⟨c, cs, rfl, hc⟩ := h1
      rw [List.replicate_succ] at he
      simp only [List.replicate_zero, List.nil_append, List.cons_append,
        List.cons.injEq] at he
      exact absurd he.1 hc
  | succ a ih =>
    intro b d1 d2 h1 h2 he
    cases b with
    | zero =>
      obtain ⟨c, cs, rfl, hc⟩ := h2
      rw [List.replicate_succ] at he
      simp only [List.replicate_zero, List.nil_append, List.cons_append,
        List.cons.injEq] at he
      exact absurd he.1.symm hc
    | succ b =>
      rw [List.replicate_succ, List.replicate_succ] at he
      simp only [List.cons_append, List.cons.injEq, true_and] at he
      exact ih b d1 d2 h1 h2 he

/-- The characters of a generated receipt number. -/
theorem mkReceiptNumber_data (y n : Nat) :
    (mkReceiptNumber y n).data =
      'R' :: 'C' :: 'P' :: (digitsOf y ++
        (List.replicate (6 - (digitsOf n).length) '0' ++ digitsOf n)) := by
  show ("RCP" ++ toString y ++ padStart6 (toString n)).data = _
  have hy : (toString y).data = digitsOf y := repr_data y
  have hn : (toString n).data = digitsOf n := repr_data n
  have hlen : (toString n).length = (digitsOf n).length := by
    show (toString n).data.length = _
    rw [hn]
  rw [String.data_append, String.data_append, padStart6, hlen, hy]
  simp [hn]

/-- Receipt numbers with four-digit years and positive sequence numbers are
injective in the (year, sequence) pair. -/
theorem mkReceiptNumber_inj (y1 y2 n1 n2 : Nat)
    (hy1 : 1000 ≤ y1) (hy1' : y1 < 10000) (hy2 : 1000 ≤ y2) (hy2' : y2 < 10000)
    (hn1 : 1 ≤ n1) (hn2 : 1 ≤ n2)
    (h : mkReceiptNumber y1 n1 = mkReceiptNumber y2 n2) : y1 = y2 ∧ n1 = n2 := by
  have hd := congrArg String.data h
  rw [mkReceiptNumber_data, mkReceiptNumber_data] at hd
  simp only [List.cons.injEq, true_and] at hd
  have hlen : (digitsOf y1).length = (digitsOf y2).length := by
    rw [digitsOf_len_four y1 hy1 hy1', digitsOf_len_four y2 hy2 hy2']
  obtain ⟨hy, hpad⟩ := List.append_inj hd hlen
  refine ⟨digitsOf_inj _ _ hy, digitsOf_inj _ _ ?_⟩
  exact replicate_zero_pad_inj _ _ _ _ (digitsOf_noLeadZero n1 hn1)
    (digitsOf_noLeadZero n2 hn2) hpad

/-- A successful `recordFeePayment` appends exactly one payment, tagged with
the caller's tenant and numbered `"RCP" + year + zeroPad(priorCount + 1, 6)`
where `priorCount` is the tenant's payment count at call time. -/
theorem recordFeePayment_ok_payments (db : DB) (tenantId userId : Nat)
    (req : PaymentRequest) (year : Nat) (today : Int) (db' : DB) (p : FeePayment)
    (h : recordFeePayment db tenantId userId req year today = .ok (db', p)) :
    db'.payments = db.payments ++ [p] ∧ p.tenant = tenantId ∧
    p.receiptNumber = mkReceiptNumber year ((paymentsOf db tenantId).length + 1) := by
  unfold recordFeePayment at h
  cases hf : db.assignments.find? (fun a =>
      a.id == req.feeAssignmentId && a.tenant == tenantId && a.student == req.studentId) with
  | none => simp [hf] at h
  | some a =>
    cases hc : jsGtOpt req.amount (jsSubOpt a.finalAmount a.paidAmount) with
    | true => simp [hf, hc] at h
    | false =>
      simp only [hf, hc, Bool.false_eq_true, if_false, Except.ok.injEq, Prod.mk.injEq] at h
      obtain ⟨hdb, hp⟩ := h
      rw [← hdb, ← hp]
      exact ⟨rfl, rfl, rfl⟩

/-- One payment call preserves the receipt-sequence invariant when its year
is four-digit. -/
theorem applyPayment_receipts (db : DB) (c : PaymentCall)
    (hy : 1000 ≤ c.year ∧ c.year < 10000)
    (h : ReceiptsSeqTagged db) : ReceiptsSeqTagged (applyPayment db c) := by
  unfold applyPayment
  cases hr : recordFeePayment db c.tenantId c.userId c.req c.year c.today with
  | error e => exact h
  | ok r =>
    obtain ⟨db', p⟩ := r
    obtain ⟨hpay, hten, hrec⟩ :=
      recordFeePayment_ok_payments db c.tenantId c.userId c.req c.year c.today db' p hr
    intro t i hi
    by_cases ht : p.tenant == t
    · have ht' : t = c.tenantId := by
        have hbeq : p.tenant = t := eq_of_beq ht
        omega
      have hsplit : paymentsOf db' t = paymentsOf db t ++ [p] := by
        unfold paymentsOf
        rw [hpay, List.filter_append]
        simp [ht]
      rw [List.getElem_of_eq hsplit hi]
      rw [hsplit] at hi
      rcases Nat.lt_or_ge i (paymentsOf db t).length with hlt | hge
      · obtain ⟨y, hy1, hy2, he⟩ := h t i hlt
        refine ⟨y, hy1, hy2, ?_⟩
        rw [List.getElem_append_left hlt]
        exact he
      · have hieq : i = (paymentsOf db t).length := by
          simp only [List.length_append, List.length_cons, List.length_nil] at hi
          omega
        refine ⟨c.year, hy.1, hy.2, ?_⟩
        rw [List.getElem_append_right hge]
        have hz : i - (paymentsOf db t).length = 0 := by omega
        simp only [hz, List.getElem_cons_zero]
        rw [hrec, hieq, ht']
    · have hsplit : paymentsOf db' t = paymentsOf db t := by
        unfold paymentsOf
        rw [hpay, List.filter_append]
        simp [ht]
      rw [List.getElem_of_eq hsplit hi]
      rw [hsplit] at hi
      exact h t i hi

/-- A sequential run of payment calls with four-digit years preserves the
receipt-sequence invariant. -/
theorem runPayments_receipts (calls : List PaymentCall) :
    ∀ db, (∀ c ∈ calls, 1000 ≤ c.year ∧ c.year < 10000) →
      ReceiptsSeqTagged db → ReceiptsSeqTagged (runPayments db calls) := by
  induction calls with
  | nil => intro db _ h; exact h
  | cons c t ih =>
    intro db hy h
    rw [runPayments, List.foldl_cons]
    exact ih (applyPayment db c) (fun x hx => hy x (List.mem_cons_of_mem c hx))
      (applyPayment_receipts db c (hy c (List.mem_cons_self c t)) h)

/-- Sequence-tagged receipts are pairwise distinct within a tenant. -/
theorem receipts_distinct_of_tagged (db : DB) (h : ReceiptsSeqTagged db) (t : Nat) :
    ((paymentsOf db t).map (fun p => p.receiptNumber)).Pairwise (· ≠ ·) := by
  rw [List.pairwise_iff_getElem]
  intro i j hi hj hij
  rw [List.length_map] at hi hj
  obtain ⟨y1, hy1, hy1', e1⟩ := h t i hi
  obtain ⟨y2, hy2, hy2', e2⟩ := h t j hj
  simp only [List.getElem_map]
  rw [e1, e2]
  intro he
  have := (mkReceiptNumber_inj y1 y2 (i + 1) (j + 1) hy1 hy1' hy2 hy2'
    (by omega) (by omega) he).2
  omega

/-- C8: under sequential execution of `recordFeePayment` with no payment
deletion (starting from a store with no payments, all call-time years being
four-digit): every successful call persists one payment whose receipt number
is `"RCP" + year + zeroPad(priorPaymentCountForTenant + 1, 6)`
(`mkReceiptNumber` is by definition that string), and after any such run the
receipt numbers within each tenant are pairwise distinct. -/
theorem receiptNumbers_unique (db0 : DB) (calls : List PaymentCall)
    (h0 : db0.payments = [])
    (hy : ∀ c ∈ calls, 1000 ≤ c.year ∧ c.year < 10000) :
    (∀ (db : DB) (tenantId userId : Nat) (req : PaymentRequest) (year : Nat)
      (today : Int) (db' : DB) (p : FeePayment),
      recordFeePayment db tenantId userId req year today = .ok (db', p) →
      p.receiptNumber = mkReceiptNumber year ((paymentsOf db tenantId).length + 1) ∧
      db'.payments = db.payments ++ [p]) ∧
    ∀ t, ((paymentsOf (runPayments db0 calls) t).map
      (fun p => p.receiptNumber)).Pairwise (· ≠ ·) := by
  constructor
  · intro db tenantId userId req year today db' p h
    obtain ⟨h1, _, h3⟩ :=
      recordFeePayment_ok_payments db tenantId userId req year today db' p h
    exact ⟨h3, h1⟩
  · intro t
    apply receipts_distinct_of_tagged
    apply runPayments_receipts calls db0 hy
    intro t' i hi
    rw [paymentsOf, h0] at hi
    exact absurd hi (by simp)

/-- C8 witness: two sequential payments (2000 in year 2024, then 3000 in
year 2025) on the scenario store yield the receipts RCP2024000001 and
RCP2025000002, which are distinct. -/
theorem receiptNumbers_unique_witness :
    ((paymentsOf (runPayments (exScnDB 100) exC8Calls) 1).map
      (fun p => p.receiptNumber)).Pairwise (· ≠ ·) ∧
    (paymentsOf (runPayments (exScnDB 100) exC8Calls) 1).map
      (fun p => p.receiptNumber) = ["RCP2024000001", "RCP2025000002"] :=
  ⟨(receiptNumbers_unique (exScnDB 100) exC8Calls rfl (by decide)).2 1, by decide⟩

end Alfitra
